import Mathlib

/-!
Shallow embedding of `sage/manifolds/differentiable/scalarfield_algebra.py`
(class `DiffScalarFieldAlgebra`) and verification of its specification.

The domain of a scalar-field algebra is an opaque collaborator in the
source module: it exposes a subset-containment predicate `is_subset`, a
differentiability-degree accessor `diff_degree`, and string/LaTeX
renderers.  We model it by a structure carrying a concrete carrier set
(deciding `is_subset` by inclusion), a degree, and the two rendered
strings.
-/

/-- Differentiability degree of a domain: sage's `infinity` object or a
natural number.  The source compares the degree with `infinity` by `==`. -/
inductive Degree where
  | infinity : Degree
  | finite : Nat → Degree
deriving DecidableEq

/-- Python rendering of a degree by str.format.  Sage prints `infinity`
as `+Infinity`, which is why `_latex_` special-cases infinity. -/
def Degree.format : Degree → String
  | Degree.infinity => "+Infinity"
  | Degree.finite n => toString n

/-- A manifold domain as seen by this module: carrier (backing the
subset-containment predicate), differentiability degree, and the
string and LaTeX renderings of the domain object. -/
structure Domain where
  carrier : List Nat
  diff_degree : Degree
  str : String
  latex : String
deriving DecidableEq

/-- The domain's subset-containment predicate `is_subset`: every point of
the first carrier lies in the second. -/
def Domain.is_subset (d1 d2 : Domain) : Bool :=
  d1.carrier.all (fun x => d2.carrier.contains x)

/-- Runtime class of an algebra instance: the plain class
`DiffScalarFieldAlgebra` or a dynamically created subclass such as
`DiffScalarFieldAlgebra_with_category`. -/
inductive ClassTag where
  | base : ClassTag
  | subclass : String → ClassTag
deriving DecidableEq

/-- The algebra of differentiable scalar fields on a domain.
`__init__` delegates to `ScalarFieldAlgebra.__init__`, which stores the
domain in the attribute `_domain`; `cls` records the runtime (sub)class
of the instance. -/
structure DiffScalarFieldAlgebra where
  _domain : Domain
  cls : ClassTag
deriving DecidableEq

/-- A parent object that may be passed to `_coerce_map_from_`: the
symbolic ring `SR` (a singleton, compared by identity), an instance of
`DiffScalarFieldAlgebra`, or any unrelated parent (tagged by a name). -/
inductive Parent where
  | SR : Parent
  | algebra : DiffScalarFieldAlgebra → Parent
  | other : String → Parent
deriving DecidableEq

/-- Translation of `DiffScalarFieldAlgebra._coerce_map_from_`:
true if `other is SR`; else if `other` is an instance of
`DiffScalarFieldAlgebra`, the value of
`self._domain.is_subset(other._domain)`; else false. -/
def DiffScalarFieldAlgebra._coerce_map_from_
    (self : DiffScalarFieldAlgebra) (other : Parent) : Bool :=
  match other with
  | Parent.SR => true
  | Parent.algebra o => self._domain.is_subset o._domain
  | Parent.other _ => false

/-- Translation of `DiffScalarFieldAlgebra._repr_`: the source returns
the concatenation of "Algebra of differentiable scalar fields on " with
"the {}".format(self._domain). -/
def DiffScalarFieldAlgebra._repr_ (self : DiffScalarFieldAlgebra) : String :=
  "Algebra of differentiable scalar fields on " ++
    ("the " ++ self._domain.str)

/-- Translation of `DiffScalarFieldAlgebra._latex_`: reads the domain's
differentiability degree, renders it as \infty when it equals infinity
(to skip the "+" in latex(infinity)) and by default formatting
otherwise, and wraps the domain's LaTeX rendering in
C^\x7bdegree\x7d\left( ... \right). -/
def DiffScalarFieldAlgebra._latex_ (self : DiffScalarFieldAlgebra) : String :=
  let degree := self._domain.diff_degree
  let latex_degree :=
    if degree = Degree.infinity then "\\infty" else degree.format
  "C^\x7b" ++ latex_degree ++ "\x7d\\left(" ++ self._domain.latex ++
    "\\right)"

/-- A constructor value that `__reduce__` may return as its first
component; the source always returns the class object
`DiffScalarFieldAlgebra` itself. -/
inductive Constructor where
  | DiffScalarFieldAlgebraCls : Constructor
deriving DecidableEq

/-- Calling the class object on a domain runs `__init__`, which stores
the domain; the fresh instance carries the plain class. -/
def Constructor.call : Constructor → Domain → DiffScalarFieldAlgebra
  | Constructor.DiffScalarFieldAlgebraCls, d =>
      { _domain := d, cls := ClassTag.base }

/-- Translation of `DiffScalarFieldAlgebra.__reduce__`: returns the pair
of the class object `DiffScalarFieldAlgebra` and the argument tuple
`(self._domain,)`. -/
def DiffScalarFieldAlgebra.__reduce__
    (self : DiffScalarFieldAlgebra) : Constructor × Domain :=
  (Constructor.DiffScalarFieldAlgebraCls, self._domain)

/-- Equality of algebras as used by the pickling doctest: two algebras
are equal when their domains are equal. -/
def DiffScalarFieldAlgebra.eq_by_domain
    (a b : DiffScalarFieldAlgebra) : Prop :=
  a._domain = b._domain

/-- State-passing form of `_coerce_map_from_`: the method body only
reads `self._domain` and assigns no attribute, so the instance is
returned unchanged next to the result. -/
def DiffScalarFieldAlgebra.coerce_map_from_st
    (self : DiffScalarFieldAlgebra) (other : Parent) :
    Bool × DiffScalarFieldAlgebra :=
  (self._coerce_map_from_ other, self)

/-- State-passing form of `_repr_`: the method body only reads
`self._domain`. -/
def DiffScalarFieldAlgebra.repr_st
    (self : DiffScalarFieldAlgebra) : String × DiffScalarFieldAlgebra :=
  (self._repr_, self)

/-- State-passing form of `_latex_`: the method body only reads
`self._domain` (its local variables `degree` and `latex_degree` are not
attributes). -/
def DiffScalarFieldAlgebra.latex_st
    (self : DiffScalarFieldAlgebra) : String × DiffScalarFieldAlgebra :=
  (self._latex_, self)

/-- State-passing form of `__reduce__`: the method body only reads
`self._domain`. -/
def DiffScalarFieldAlgebra.reduce_st
    (self : DiffScalarFieldAlgebra) :
    (Constructor × Domain) × DiffScalarFieldAlgebra :=
  (self.__reduce__, self)

/-- Concrete domain playing the role of the open subset W of the
doctests. -/
def domW : Domain :=
  { carrier := [0]
    diff_degree := Degree.infinity
    str := "Open subset W of the 2-dimensional differentiable manifold M"
    latex := "W" }

/-- Concrete domain playing the role of the manifold M of the doctests;
`domW` is a subset of it. -/
def domM : Domain :=
  { carrier := [0, 1]
    diff_degree := Degree.infinity
    str := "2-dimensional differentiable manifold M"
    latex := "M" }

/-- The algebra of scalar fields on W, with the runtime class produced
by the category framework. -/
def algW : DiffScalarFieldAlgebra :=
  { _domain := domW
    cls := ClassTag.subclass "DiffScalarFieldAlgebra_with_category" }

/-- The algebra of scalar fields on M, with the runtime class produced
by the category framework. -/
def algM : DiffScalarFieldAlgebra :=
  { _domain := domM
    cls := ClassTag.subclass "DiffScalarFieldAlgebra_with_category" }

/-- The subset-containment predicate is reflexive: the carrier test is
non-strict. -/
lemma Domain.is_subset_self (d : Domain) : d.is_subset d = true := by
  simp [Domain.is_subset, List.all_eq_true]

/-- C1 counterexample: with A1 = A2 the algebra on W, the domain of A1
is a subset of the domain of A2, yet the coercion predicate on A2 with
argument A1 returns true, not false as the claim demands. -/
theorem C1_counterexample :
    algW._domain.is_subset algW._domain = true ∧
    ¬ (algW._coerce_map_from_ (Parent.algebra algW) = false) := by
  decide

/-- C1 (amended): for algebras A1 on D1 and A2 on D2 with D1 a subset of
D2 and D2 not a subset of D1 (proper inclusion), the coercion predicate
on A1 with argument A2 returns true and on A2 with argument A1 returns
false. -/
theorem C1_coerce_proper_subset (A1 A2 : DiffScalarFieldAlgebra)
    (h1 : A1._domain.is_subset A2._domain = true)
    (h2 : A2._domain.is_subset A1._domain = false) :
    A1._coerce_map_from_ (Parent.algebra A2) = true ∧
    A2._coerce_map_from_ (Parent.algebra A1) = false := by
  exact ⟨h1, h2⟩

/-- Witness for C1: the algebras on W and on M, with W a proper subset
of M. -/
theorem C1_coerce_proper_subset_witness :
    algW._domain.is_subset algM._domain = true ∧
    algM._domain.is_subset algW._domain = false ∧
    (algW._coerce_map_from_ (Parent.algebra algM) = true ∧
     algM._coerce_map_from_ (Parent.algebra algW) = false) :=
  ⟨by decide, by decide,
    C1_coerce_proper_subset algW algM (by decide) (by decide)⟩

/-- C2: for every algebra instance, the coercion predicate returns true
on the designated base symbolic ring SR. -/
theorem C2_coerce_from_SR (a : DiffScalarFieldAlgebra) :
    a._coerce_map_from_ Parent.SR = true := rfl

/-- C3: for every algebra instance and every argument that is neither
SR nor an instance of DiffScalarFieldAlgebra (any unrelated parent),
the coercion predicate returns false. -/
theorem C3_coerce_unrelated (a : DiffScalarFieldAlgebra) (s : String) :
    a._coerce_map_from_ (Parent.other s) = false := rfl

/-- C4: for every algebra instance with domain D, the string
representation is exactly "Algebra of differentiable scalar fields on
the " concatenated with the string representation of D. -/
theorem C4_repr (a : DiffScalarFieldAlgebra) :
    a._repr_ =
      "Algebra of differentiable scalar fields on the " ++
        a._domain.str := by
  show "Algebra of differentiable scalar fields on " ++
      ("the " ++ a._domain.str) = _
  rw [← String.append_assoc]
  rfl

/-- C5 counterexample: on the algebra on M (degree infinity, domain
LaTeX "M") the LaTeX representation is not the claimed string
C^\x7b\infty\x7d(M): the code wraps the domain in \left( and \right)
delimiters. -/
theorem C5_counterexample :
    algM._domain.diff_degree = Degree.infinity ∧
    ¬ (algM._latex_ = "C^\x7b\\infty\x7d(M)") := by
  decide

/-- C5 (amended): the LaTeX representation is
C^\x7bk\x7d\left(domain_latex\right), where k is "\infty" when the
degree equals infinity and the default formatting of the numeric degree
otherwise. -/
theorem C5_latex (a : DiffScalarFieldAlgebra) :
    (a._domain.diff_degree = Degree.infinity →
      a._latex_ =
        "C^\x7b\\infty\x7d\\left(" ++ a._domain.latex ++ "\\right)") ∧
    (∀ n : Nat, a._domain.diff_degree = Degree.finite n →
      a._latex_ =
        "C^\x7b" ++ toString n ++ "\x7d\\left(" ++ a._domain.latex ++
          "\\right)") := by
  constructor
  · intro h
    simp [DiffScalarFieldAlgebra._latex_, h]
  · intro n h
    simp [DiffScalarFieldAlgebra._latex_, h, Degree.format]

/-- Witness for C5: on the algebra on M the degree is infinity and the
LaTeX representation is C^\x7b\infty\x7d\left(M\right). -/
theorem C5_latex_witness :
    algM._domain.diff_degree = Degree.infinity ∧
    algM._latex_ = "C^\x7b\\infty\x7d\\left(M\\right)" :=
  ⟨rfl, (C5_latex algM).1 rfl⟩

/-- C6: applying the constructor returned by __reduce__ to the returned
domain yields an algebra equal to the original, equality being decided
by equality of the domains. -/
theorem C6_reduce_roundtrip (a : DiffScalarFieldAlgebra) :
    (Constructor.call a.__reduce__.1 a.__reduce__.2).eq_by_domain a :=
  rfl

/-- C7: the coercion predicate is total: on every argument it returns a
boolean (in particular false on every unrelated parent); the
subset-containment predicate of the model is total by construction. -/
theorem C7_coerce_total (a : DiffScalarFieldAlgebra) (s : String) :
    a._coerce_map_from_ (Parent.other s) = false ∧
    ∀ p : Parent,
      a._coerce_map_from_ p = true ∨ a._coerce_map_from_ p = false :=
  ⟨rfl, fun p => Bool.eq_false_or_eq_true (a._coerce_map_from_ p) |>.symm.imp id id |>.symm⟩

/-- C8: every operation of the module, in state-passing form, returns
the algebra instance unchanged; in particular the stored domain
reference is only read, never mutated or reassigned. -/
theorem C8_no_mutation (a : DiffScalarFieldAlgebra) (p : Parent) :
    (a.coerce_map_from_st p).2 = a ∧
    a.repr_st.2 = a ∧
    a.latex_st.2 = a ∧
    a.reduce_st.2 = a ∧
    (a.coerce_map_from_st p).2._domain = a._domain :=
  ⟨rfl, rfl, rfl, rfl, rfl⟩

/-- C9: the coercion predicate is reflexive: on an algebra whose domain
equals the domain of self (in particular self itself) it returns true,
the subset-containment test being non-strict. -/
theorem C9_coerce_refl (a b : DiffScalarFieldAlgebra)
    (h : b._domain = a._domain) :
    a._coerce_map_from_ (Parent.algebra b) = true := by
  show a._domain.is_subset b._domain = true
  rw [h]
  exact a._domain.is_subset_self

/-- Witness for C9: the algebra on M coerces from itself. -/
theorem C9_coerce_refl_witness :
    algM._domain = algM._domain ∧
    algM._coerce_map_from_ (Parent.algebra algM) = true :=
  ⟨rfl, C9_coerce_refl algM algM rfl⟩

/-- C10: the first component of the pair returned by __reduce__ is the
fixed class DiffScalarFieldAlgebra, for every instance, whatever its
runtime (sub)class tag. -/
theorem C10_reduce_class (a : DiffScalarFieldAlgebra) :
    a.__reduce__.1 = Constructor.DiffScalarFieldAlgebraCls := rfl
